import Mathlib

/-!
Verification of the pyikev2 IKEv2 daemon core against its specification.

The repository ships `configuration.py` (the configuration view, embedded
below from the source) together with the test-suite `test_protocol.py` for
the `IkeSa` state machine.  The `IkeSa` implementation itself
(`protocol_.py`) is not part of the available sources, so the state machine
is modelled from the specification (sections 3, 4.1, 4.3-4.5, 7 and 8 of
the spec), with the behaviour pinned by the assertions of
`test_protocol.py` wherever the spec's own sentences disagree.

Conventions of the shallow embedding:
- raw byte strings are `List Nat`;
- Python `None`-or-bytes return values are `Option Msg`;
- a mutating method `self.f(x)` becomes a function `IkeSa → X → IkeSa × Option Msg`
  returning the updated record and the emitted datagram;
- randomness (SPIs, nonces) is replaced by a deterministic supply carried
  in the state, exchanges compare and transport full structured messages
  (the codec round-trips byte-exact, so structural equality models
  byte-equality of encodings).
-/

/-- Raw bytes, as a list of byte values. -/
abbrev Bytes := List Nat

namespace Pyikev2

/-! ## Configuration view (embedded from src/configuration.py) -/

/-- Error raised by `Configuration.get_ike_configuration` when no entry
matches: `class ConfigurationNotFound(ConfigurationError)`. -/
inductive ConfError where
  | ConfigurationNotFound
  deriving DecidableEq, Repr

/-- The `Configuration._configuration` dict: peer IP address (already
parsed, modelled as `Nat`) to the per-peer configuration value.  Python
dict keys are unique; theorems that need this take it as a `Nodup`
hypothesis.  The value type is a parameter because
`get_ike_configuration` never inspects it. -/
abbrev ConfDict (α : Type) := List (Nat × α)

/-- Embedding of `Configuration.get_ike_configuration` (configuration.py
lines 147-153): `next(key for key in self._configuration if addr == key)`
scans the dict keys for one equal to `addr`; on `StopIteration` it raises
`ConfigurationNotFound`, otherwise it returns `self._configuration[found]`. -/
def get_ike_configuration {α : Type} (conf : ConfDict α) (addr : Nat) :
    Except ConfError α :=
  match conf.find? (fun kv => addr = kv.1) with
  | some kv => .ok kv.2
  | none => .error .ConfigurationNotFound

/-! ## Data model of the IkeSa core.

Modelled from the spec: `protocol_.py` (the `IkeSa` class) is not among
the available sources; the definitions below follow spec sections 3
(data model), 4.1 (state machine), 4.3 (proposal negotiator), 4.4
(traffic-selector negotiator) and 7 (error handling), with the in-tree
`test_protocol.py` assertions pinning behaviour where the spec's
sentences conflict. -/

/-- Modelled from the spec: the thirteen states of section 4.1. -/
inductive IkeState where
  | INITIAL
  | INIT_REQ_SENT
  | INIT_RES_SENT
  | AUTH_REQ_SENT
  | ESTABLISHED
  | NEW_CHILD_REQ_SENT
  | REK_CHILD_REQ_SENT
  | DEL_CHILD_REQ_SENT
  | REK_IKE_SA_REQ_SENT
  | DEL_IKE_SA_REQ_SENT
  | REKEYED
  | DEL_AFTER_REKEY_IKE_SA_REQ_SENT
  | DELETED
  deriving DecidableEq, Repr

/-- Modelled from the spec: the four IKEv2 exchange types (section 4.1). -/
inductive ExchangeType where
  | IKE_SA_INIT
  | IKE_AUTH
  | CREATE_CHILD_SA
  | INFORMATIONAL
  deriving DecidableEq, Repr

/-- Modelled from the spec: the notify payload types the core emits or
inspects (sections 4.1.4-4.1.8 and 7). -/
inductive NotifyType where
  | NO_PROPOSAL_CHOSEN
  | INVALID_KE_PAYLOAD
  | AUTHENTICATION_FAILED
  | TS_UNACCEPTABLE
  | TEMPORARY_FAILURE
  | CHILD_SA_NOT_FOUND
  | USE_TRANSPORT_MODE
  | REKEY_SA
  deriving DecidableEq, Repr

/-- Modelled from the spec: a notify payload, type plus opaque data
(the selected DH id for `INVALID_KE_PAYLOAD`, the rekeyed SPI for
`REKEY_SA`, empty otherwise). -/
structure Notify where
  ntype : NotifyType
  data : Bytes
  deriving DecidableEq, Repr

/-- Modelled from the spec: a DELETE payload carries either the IKE SA
itself or a list of child SPIs (section 4.1.7). -/
inductive DeleteTarget where
  | ikeSa
  | childSa (spis : List Nat)
  deriving DecidableEq, Repr

/-- Modelled from the spec: an IKE-protocol SA proposal, the configured
ENCR/INTEG/PRF/DH transform lists (section 4.1.4); a chosen proposal is
one with singleton lists. -/
structure IkeProposal where
  encr : List Nat
  integ : List Nat
  prf : List Nat
  dh : List Nat
  deriving DecidableEq, Repr

/-- Modelled from the spec: the outcome of IKE proposal negotiation, one
transform of each type. -/
structure ChosenIke where
  encr : Nat
  integ : Nat
  prf : Nat
  dh : Nat
  deriving DecidableEq, Repr

/-- Modelled from the spec: an ESP/AH child proposal: IPsec protocol id
(3 = ESP, 2 = AH) and ENCR/INTEG transform lists. -/
structure ChildProposal where
  proto : Nat
  encr : List Nat
  integ : List Nat
  deriving DecidableEq, Repr

/-- Modelled from the spec: a traffic selector, an address range with a
port (0 meaning any) and an IP protocol id (section 4.4, section 6). -/
structure TrafficSel where
  startAddr : Nat
  endAddr : Nat
  port : Nat
  ipProto : Nat
  deriving DecidableEq, Repr

/-- Modelled from the spec: one `protect` record of the configuration:
policy index, local and peer selectors, mode (0 transport, 1 tunnel),
child proposal and lifetime (section 6). -/
structure IpsecConf where
  index : Nat
  mySel : TrafficSel
  peerSel : TrafficSel
  mode : Nat
  proposal : ChildProposal
  lifetime : Nat
  deriving DecidableEq, Repr

/-- Modelled from the spec: the per-peer `IkeConfiguration` view consumed
by the state machine: PSK, identities, the IKE proposal and the protect
records (section 6). -/
structure IkeConfig where
  psk : Bytes
  myId : Bytes
  peerId : Bytes
  proposal : IkeProposal
  protect : List IpsecConf
  lifetime : Nat
  dpd : Nat
  deriving DecidableEq, Repr

/-- Modelled from the spec: a parsed IKEv2 message.  The codec round-trips
byte-exact (section 6), so the structured form stands for the raw
datagram; equality of `Msg` models byte-equality.  Payloads are optional
fields: SA (IKE or child flavour), KE (as its DH group id), NONCE, IDx,
AUTH (method, data), TSi/TSr, notifies and DELETE. -/
structure Msg where
  exchangeType : ExchangeType
  isRequest : Bool
  isInitiatorFlag : Bool
  messageId : Nat
  ikeProposal : Option IkeProposal := none
  keDh : Option Nat := none
  nonce : Option Bytes := none
  idPayload : Option Bytes := none
  authMethod : Option Nat := none
  authData : Option Bytes := none
  childSa : Option (Nat × ChildProposal) := none
  tsi : Option (List TrafficSel) := none
  tsr : Option (List TrafficSel) := none
  notifies : List Notify := []
  delete : Option DeleteTarget := none
  deriving DecidableEq, Repr

/-- Modelled from the spec: a Child SA record (section 3): locally chosen
inbound SPI, peer chosen outbound SPI, negotiated proposal, narrowed
selectors, mode and lifetime. -/
structure ChildSa where
  inboundSpi : Nat
  outboundSpi : Nat
  proposal : ChildProposal
  tsi : TrafficSel
  tsr : TrafficSel
  mode : Nat
  lifetime : Nat
  deriving DecidableEq, Repr

/-- Modelled from the spec: an ACQUIRE trigger from the kernel policy
plane: narrow selectors and the policy index (section 6). -/
structure Acquire where
  tsi : TrafficSel
  tsr : TrafficSel
  index : Nat
  deriving DecidableEq, Repr

/-- Modelled from the spec: the `IkeSa` record (section 3).  Randomness is
replaced by the deterministic `spiSupply`; `pendingAcquire` holds the
trigger between IKE_SA_INIT and IKE_AUTH; `rekeyingChildSpi` is the
per-child rekey intent. -/
structure IkeSa where
  isInitiator : Bool
  mySpi : Nat
  peerSpi : Nat
  configuration : IkeConfig
  state : IkeState
  myMsgId : Nat
  peerMsgId : Nat
  requestInFlight : Option Msg
  lastResponseSent : Option Msg
  myNonce : Bytes
  peerNonce : Bytes
  childSas : List ChildSa
  acquireQueue : List Acquire
  expireQueue : List (Nat × Bool)
  retransmitAt : Option Nat
  retransmissions : Nat
  startDpdAt : Option Nat
  rekeyIkeSaAt : Option Nat
  deleteIkeSaAt : Option Nat
  rekeyingChildSpi : Option Nat
  pendingAcquire : Option Acquire
  spiSupply : Nat
  deriving DecidableEq, Repr

/-- Modelled from the spec: `MAX_RETRANSMISSIONS` (default 4, section 3). -/
def MAX_RETRANSMISSIONS : Nat := 4

/-- Modelled from the spec: the fixed retransmission backoff interval
(section 4.1.9, "exponential or fixed backoff"; the model uses fixed). -/
def RETRANSMIT_TIMEOUT : Nat := 2

/-- Modelled from the spec: fresh `IkeSa` construction: state `INITIAL`,
both message ids 0, empty queues, a deterministic nonce in place of the
random 32-byte one. -/
def mkIkeSa (isInit : Bool) (mySpi peerSpi : Nat) (cfg : IkeConfig) : IkeSa where
  isInitiator := isInit
  mySpi := mySpi
  peerSpi := peerSpi
  configuration := cfg
  state := .INITIAL
  myMsgId := 0
  peerMsgId := 0
  requestInFlight := none
  lastResponseSent := none
  myNonce := [100 + mySpi]
  peerNonce := []
  childSas := []
  acquireQueue := []
  expireQueue := []
  retransmitAt := none
  retransmissions := 0
  startDpdAt := none
  rekeyIkeSaAt := none
  deleteIkeSaAt := none
  rekeyingChildSpi := none
  pendingAcquire := none
  spiSupply := 0

/-! ## Negotiators, key-less crypto abstraction and message builders. -/

/-- Modelled from the spec: one transform-type intersection (section 4.3):
pick the peer's preferred (first) value that the local list also offers. -/
def pickTransform (localVals peerVals : List Nat) : Option Nat :=
  peerVals.find? (fun v => localVals.contains v)

/-- Modelled from the spec: IKE proposal intersection (section 4.3): every
required transform type must intersect, else no match. -/
def negotiateIke (localProp peerProp : IkeProposal) : Option ChosenIke :=
  match pickTransform localProp.encr peerProp.encr,
        pickTransform localProp.integ peerProp.integ,
        pickTransform localProp.prf peerProp.prf,
        pickTransform localProp.dh peerProp.dh with
  | some e, some i, some p, some d => some ⟨e, i, p, d⟩
  | _, _, _, _ => none

/-- Modelled from the spec: child proposal intersection: same IPsec
protocol, ENCR and INTEG must intersect (sections 4.1.5, 4.3). -/
def negotiateChild (localProp peerProp : ChildProposal) : Option ChildProposal :=
  if localProp.proto = peerProp.proto then
    match pickTransform localProp.encr peerProp.encr,
          pickTransform localProp.integ peerProp.integ with
    | some e, some i => some ⟨localProp.proto, [e], [i]⟩
    | _, _ => none
  else none

/-- Modelled from the spec: traffic-selector narrowing (section 4.4):
intersect the address ranges; ports match when the policy port is 0 (any)
or equal; protocols must be equal.  Empty intersection is `none`. -/
def narrowSel (policy peer : TrafficSel) : Option TrafficSel :=
  if policy.ipProto = peer.ipProto ∧ (policy.port = 0 ∨ policy.port = peer.port) then
    let lo := max policy.startAddr peer.startAddr
    let hi := min policy.endAddr peer.endAddr
    if lo ≤ hi then some ⟨lo, hi, peer.port, peer.ipProto⟩ else none
  else none

/-- Modelled from the spec: PSK-keyed MAC abstraction for the AUTH payload
(RFC 7296 section 2.15 via spec section 4.1.5): the pair of key and signed
octets, length-prefixed.  Verification is recomputation plus equality. -/
def authMac (psk : Bytes) (signed : Bytes) : Bytes :=
  psk.length :: (psk ++ signed)

/-- Modelled from the spec: the AUTH method id for pre-shared key. -/
def AUTH_PSK : Nat := 2

/-- Modelled from the spec: the signed octets covered by the initiator's
AUTH payload, derived from its identity payload. -/
def signedOctetsInitiator (idPayload : Bytes) : Bytes := 105 :: idPayload

/-- Modelled from the spec: the signed octets covered by the responder's
AUTH payload. -/
def signedOctetsResponder (idPayload : Bytes) : Bytes := 114 :: idPayload

/-- Modelled from the spec: membership of a notify type in a message. -/
def hasNotify (m : Msg) (t : NotifyType) : Bool :=
  m.notifies.any (fun n => n.ntype = t)

/-- Modelled from the spec: the first notify of a given type, if any. -/
def getNotify (m : Msg) (t : NotifyType) : Option Notify :=
  m.notifies.find? (fun n => n.ntype = t)

/-- Modelled from the spec: allocate a fresh locally chosen SPI from the
deterministic supply (stands in for the random 4-byte child SPI). -/
def freshSpi (s : IkeSa) : Nat × IkeSa :=
  (100 * s.mySpi + s.spiSupply + 1, { s with spiSupply := s.spiSupply + 1 })

/-- Modelled from the spec: responder step 5 of section 4.1.2: store the
response in the replay cache, advance `peer_msg_id`, emit the bytes. -/
def respondWith (s : IkeSa) (resp : Msg) : IkeSa × Option Msg :=
  ({ s with peerMsgId := s.peerMsgId + 1, lastResponseSent := some resp }, some resp)

/-- Modelled from the spec: the transition to the terminal `DELETED` state
(sections 3 and 5): children are removed from the kernel plane, timers
cleared, queues discarded. -/
def toDeleted (s : IkeSa) : IkeSa :=
  { s with state := .DELETED, childSas := [], requestInFlight := none,
           retransmitAt := none, startDpdAt := none, rekeyIkeSaAt := none,
           deleteIkeSaAt := none, acquireQueue := [], expireQueue := [],
           rekeyingChildSpi := none, pendingAcquire := none }

/-- Modelled from the spec: a response skeleton echoing exchange type and
message id of the request, with the responder's role flag. -/
def mkResponse (s : IkeSa) (m : Msg) : Msg :=
  { exchangeType := m.exchangeType, isRequest := false,
    isInitiatorFlag := s.isInitiator, messageId := m.messageId }

/-- Modelled from the spec: select the first protect record whose child
proposal intersects the offered one (sections 4.1.5, 4.3). -/
def selectChildConf (protect : List IpsecConf) (offered : ChildProposal) :
    Option (IpsecConf × ChildProposal) :=
  protect.findSome? (fun conf =>
    (negotiateChild conf.proposal offered).map (fun cp => (conf, cp)))

/-- Modelled from the spec: narrow the received TSi/TSr pair against a
protect record: TSi against the peer-side selector, TSr against the local
one (section 4.4). -/
def narrowTsPair (conf : IpsecConf) (tsi tsr : TrafficSel) :
    Option (TrafficSel × TrafficSel) :=
  match narrowSel conf.peerSel tsi, narrowSel conf.mySel tsr with
  | some a, some b => some (a, b)
  | _, _ => none

/-! ## Exchange handlers (responder role). -/

/-- Modelled from the spec: shared child-SA negotiation on the responder
(sections 4.1.5/4.1.6): proposal intersection, mode check, TS narrowing,
in that order; each failure is answered with its notify while the IKE SA
proceeds to `ESTABLISHED` with no child installed. -/
def handleChildNegotiation (s : IkeSa) (m : Msg) (base : Msg) : IkeSa × Option Msg :=
  match m.childSa, (m.tsi.getD []).head?, (m.tsr.getD []).head? with
  | some (peerSpiC, offered), some tsi0, some tsr0 =>
    match selectChildConf s.configuration.protect offered with
    | none =>
      respondWith { s with state := .ESTABLISHED }
        { base with notifies := base.notifies ++ [⟨.NO_PROPOSAL_CHOSEN, []⟩] }
    | some (conf, cp) =>
      if (decide (conf.mode = 0)) ≠ hasNotify m .USE_TRANSPORT_MODE then
        respondWith { s with state := .ESTABLISHED }
          { base with notifies := base.notifies ++ [⟨.TS_UNACCEPTABLE, []⟩] }
      else
        match narrowTsPair conf tsi0 tsr0 with
        | none =>
          respondWith { s with state := .ESTABLISHED }
            { base with notifies := base.notifies ++ [⟨.TS_UNACCEPTABLE, []⟩] }
        | some (ntsi, ntsr) =>
          let (spiC, s') := freshSpi s
          let child : ChildSa := ⟨spiC, peerSpiC, cp, ntsi, ntsr, conf.mode, conf.lifetime⟩
          let resp := { base with
            childSa := some (spiC, cp), tsi := some [ntsi], tsr := some [ntsr],
            nonce := some s.myNonce,
            notifies := base.notifies ++
              (if conf.mode = 0 then [⟨.USE_TRANSPORT_MODE, []⟩] else []) }
          respondWith { s' with state := .ESTABLISHED,
                                childSas := s'.childSas ++ [child] } resp
  | _, _, _ =>
    respondWith { s with state := .ESTABLISHED }
      { base with notifies := base.notifies ++ [⟨.NO_PROPOSAL_CHOSEN, []⟩] }

/-- Modelled from the spec: responder handling of an IKE_SA_INIT request
(section 4.1.4).  On proposal mismatch the reply is `NO_PROPOSAL_CHOSEN`
and the SA is deleted.  On KE/DH mismatch the reply is
`INVALID_KE_PAYLOAD` carrying the selected DH id; the spec's section 8
scenario 2 and `test_ike_sa_init_invalid_ke` pin the responder state to
`DELETED` afterwards (a fresh responder SA serves the retry), overriding
section 4.1.4's "stays in INITIAL". -/
def handleSaInitReq (s : IkeSa) (m : Msg) : IkeSa × Option Msg :=
  if s.state = .INITIAL then
    match m.ikeProposal, m.keDh, m.nonce with
    | some p, some g, some peerN =>
      match negotiateIke s.configuration.proposal p with
      | none =>
        respondWith (toDeleted s)
          { mkResponse s m with notifies := [⟨.NO_PROPOSAL_CHOSEN, []⟩] }
      | some c =>
        if g ≠ c.dh then
          respondWith (toDeleted s)
            { mkResponse s m with notifies := [⟨.INVALID_KE_PAYLOAD, [c.dh]⟩] }
        else
          let resp := { mkResponse s m with
            ikeProposal := some ⟨[c.encr], [c.integ], [c.prf], [c.dh]⟩,
            keDh := some c.dh, nonce := some s.myNonce }
          respondWith { s with state := .INIT_RES_SENT, peerNonce := peerN } resp
    | _, _, _ => (s, none)
  else (s, none)

/-- Modelled from the spec: responder handling of an IKE_AUTH request
(section 4.1.5): the AUTH method must be PSK and the AUTH data must
verify, else `AUTHENTICATION_FAILED` is returned and the SA is deleted;
otherwise the first child is negotiated. -/
def handleAuthReq (s : IkeSa) (m : Msg) : IkeSa × Option Msg :=
  if s.state = .INIT_RES_SENT then
    if m.authMethod = some AUTH_PSK ∧
       m.authData = some (authMac s.configuration.psk
         (signedOctetsInitiator (m.idPayload.getD []))) then
      let base := { mkResponse s m with
        idPayload := some s.configuration.myId,
        authMethod := some AUTH_PSK,
        authData := some (authMac s.configuration.psk
          (signedOctetsResponder s.configuration.myId)) }
      handleChildNegotiation s m base
    else
      respondWith (toDeleted s)
        { mkResponse s m with notifies := [⟨.AUTHENTICATION_FAILED, []⟩] }
  else (s, none)

/-- Modelled from the spec: responder handling of a CREATE_CHILD_SA
request (sections 4.1.6 and 4.1.8).  While one of our own exchanges is
in flight the reply is `TEMPORARY_FAILURE` (collision table of 4.1.8,
extended to an in-flight delete-IKE per
`test_simultaneous_del_ike_sa_create_child`).  At `ESTABLISHED` the
request is a rekey-IKE (IKE-protocol SA payload), a child rekey
(`REKEY_SA` notify) or a new child. -/
def handleChildReq (s : IkeSa) (m : Msg) : IkeSa × Option Msg :=
  if s.state = .ESTABLISHED then
    match m.ikeProposal with
    | some p =>
      match negotiateIke s.configuration.proposal p, m.nonce with
      | some c, some peerN =>
        let resp := { mkResponse s m with
          ikeProposal := some ⟨[c.encr], [c.integ], [c.prf], [c.dh]⟩,
          nonce := some s.myNonce }
        respondWith { s with state := .REKEYED, peerNonce := peerN } resp
      | _, _ =>
        respondWith s { mkResponse s m with notifies := [⟨.NO_PROPOSAL_CHOSEN, []⟩] }
    | none =>
      match getNotify m .REKEY_SA with
      | some n =>
        match s.childSas.find? (fun c => n.data = [c.outboundSpi]) with
        | none =>
          respondWith s { mkResponse s m with notifies := [⟨.CHILD_SA_NOT_FOUND, []⟩] }
        | some _ => handleChildNegotiation s m (mkResponse s m)
      | none => handleChildNegotiation s m (mkResponse s m)
  else if s.state = .NEW_CHILD_REQ_SENT ∨ s.state = .REK_CHILD_REQ_SENT ∨
          s.state = .DEL_CHILD_REQ_SENT ∨ s.state = .REK_IKE_SA_REQ_SENT ∨
          s.state = .DEL_IKE_SA_REQ_SENT then
    respondWith s { mkResponse s m with notifies := [⟨.TEMPORARY_FAILURE, []⟩] }
  else (s, none)

/-- Modelled from the spec: responder handling of an INFORMATIONAL request
(section 4.1.7): DELETE(IKE) is answered and moves to `DELETED`;
DELETE(child) removes the children addressed by the peer's SPIs and
answers with the local SPIs of the removed ones (an unknown SPI is simply
skipped); an empty request (DPD liveness) gets an empty response. -/
def handleInfoReq (s : IkeSa) (m : Msg) : IkeSa × Option Msg :=
  if s.state = .INITIAL ∨ s.state = .INIT_REQ_SENT ∨ s.state = .INIT_RES_SENT ∨
     s.state = .AUTH_REQ_SENT then (s, none)
  else
    match m.delete with
    | some .ikeSa => respondWith (toDeleted s) (mkResponse s m)
    | some (.childSa spis) =>
      let removed := s.childSas.filter (fun c => spis.contains c.outboundSpi)
      let kept := s.childSas.filter (fun c => !(spis.contains c.outboundSpi))
      let resp := { mkResponse s m with
        delete := some (.childSa (removed.map (fun c => c.inboundSpi))) }
      respondWith { s with childSas := kept } resp
    | none => respondWith s (mkResponse s m)

/-- Modelled from the spec: per-exchange request dispatch (section 4.1.2
step 4: an exchange type unrecognised for the current state is dropped
silently inside each handler). -/
def handleRequest (s : IkeSa) (m : Msg) : IkeSa × Option Msg :=
  match m.exchangeType with
  | .IKE_SA_INIT => handleSaInitReq s m
  | .IKE_AUTH => handleAuthReq s m
  | .CREATE_CHILD_SA => handleChildReq s m
  | .INFORMATIONAL => handleInfoReq s m

/-! ## Initiator-side machinery: exchange starts, queues, response handlers. -/

/-- Modelled from the spec: start a CREATE_CHILD_SA (new child) exchange
from `ESTABLISHED` for an acquire trigger (sections 4.1.1 and 4.1.6):
look up the protect record by policy index, offer its proposal with a
fresh SPI and the trigger's selectors. -/
def startAcquireEx (s : IkeSa) (a : Acquire) : IkeSa × Option Msg :=
  match s.configuration.protect.find? (fun conf => conf.index = a.index) with
  | none => (s, none)
  | some conf =>
    let (spiC, s') := freshSpi s
    let req : Msg :=
      { exchangeType := .CREATE_CHILD_SA, isRequest := true,
        isInitiatorFlag := s.isInitiator, messageId := s.myMsgId,
        childSa := some (spiC, conf.proposal),
        tsi := some [a.tsi], tsr := some [a.tsr], nonce := some s.myNonce,
        notifies := if conf.mode = 0 then [⟨.USE_TRANSPORT_MODE, []⟩] else [] }
    ({ s' with state := .NEW_CHILD_REQ_SENT, requestInFlight := some req,
               retransmitAt := some RETRANSMIT_TIMEOUT, retransmissions := 0 },
     some req)

/-- Modelled from the spec: start the exchange for an expire trigger from
`ESTABLISHED` (section 4.1.1): a hard expire sends INFORMATIONAL
DELETE(child), a soft expire sends a CREATE_CHILD_SA rekey carrying a
`REKEY_SA` notify with the expiring inbound SPI. -/
def startExpireEx (s : IkeSa) (spi : Nat) (hard : Bool) : IkeSa × Option Msg :=
  match s.childSas.find? (fun c => c.inboundSpi = spi) with
  | none => (s, none)
  | some child =>
    if hard then
      let req : Msg :=
        { exchangeType := .INFORMATIONAL, isRequest := true,
          isInitiatorFlag := s.isInitiator, messageId := s.myMsgId,
          delete := some (.childSa [spi]) }
      ({ s with state := .DEL_CHILD_REQ_SENT, requestInFlight := some req,
                retransmitAt := some RETRANSMIT_TIMEOUT, retransmissions := 0 },
       some req)
    else
      let (spiC, s') := freshSpi s
      let req : Msg :=
        { exchangeType := .CREATE_CHILD_SA, isRequest := true,
          isInitiatorFlag := s.isInitiator, messageId := s.myMsgId,
          childSa := some (spiC, child.proposal),
          tsi := some [child.tsi], tsr := some [child.tsr], nonce := some s.myNonce,
          notifies := (if child.mode = 0 then [⟨.USE_TRANSPORT_MODE, []⟩] else []) ++
            [⟨.REKEY_SA, [spi]⟩] }
      ({ s' with state := .REK_CHILD_REQ_SENT, requestInFlight := some req,
                 rekeyingChildSpi := some spi,
                 retransmitAt := some RETRANSMIT_TIMEOUT, retransmissions := 0 },
       some req)

/-- Modelled from the spec: queue consumption (section 4.1.10): when the
state returns to `ESTABLISHED`, the next queued trigger (acquires first,
then expires, each FIFO) is consumed and may synchronously produce the
returned datagram. -/
def popQueue (s : IkeSa) : IkeSa × Option Msg :=
  match s.acquireQueue with
  | a :: rest => startAcquireEx { s with acquireQueue := rest } a
  | [] =>
    match s.expireQueue with
    | (spi, hard) :: rest => startExpireEx { s with expireQueue := rest } spi hard
    | [] => (s, none)

/-- Modelled from the spec: successful completion of an initiated exchange
(section 4.1.3): clear `request_in_flight`, advance `my_msg_id` by one,
clear the retransmission timer, return to `ESTABLISHED` and consume the
queues. -/
def completeExchange (s : IkeSa) : IkeSa × Option Msg :=
  popQueue { s with state := .ESTABLISHED, myMsgId := s.myMsgId + 1,
                    requestInFlight := none, retransmitAt := none,
                    retransmissions := 0, rekeyingChildSpi := none }

/-- Modelled from the spec: initiator handling of the IKE_SA_INIT response
(section 4.1.4): `NO_PROPOSAL_CHOSEN` deletes the SA;
`INVALID_KE_PAYLOAD` restarts the request with the indicated DH, the same
SPIs and message id 0; otherwise keys are derived and the IKE_AUTH
request is emitted from the same call (section 4.1.5). -/
def handleInitRes (s : IkeSa) (q m : Msg) : IkeSa × Option Msg :=
  if hasNotify m .NO_PROPOSAL_CHOSEN then (toDeleted s, none)
  else
    match getNotify m .INVALID_KE_PAYLOAD with
    | some n =>
      let req := { q with keDh := n.data.head? }
      ({ s with requestInFlight := some req,
                retransmitAt := some RETRANSMIT_TIMEOUT, retransmissions := 0 },
       some req)
    | none =>
      match m.nonce, s.pendingAcquire with
      | some peerN, some a =>
        let s1 := { s with peerNonce := peerN, myMsgId := s.myMsgId + 1,
                           requestInFlight := none }
        match s1.configuration.protect.find? (fun conf => conf.index = a.index) with
        | none => (s1, none)
        | some conf =>
          let (spiC, s2) := freshSpi s1
          let req : Msg :=
            { exchangeType := .IKE_AUTH, isRequest := true,
              isInitiatorFlag := s2.isInitiator, messageId := s2.myMsgId,
              idPayload := some s2.configuration.myId,
              authMethod := some AUTH_PSK,
              authData := some (authMac s2.configuration.psk
                (signedOctetsInitiator s2.configuration.myId)),
              childSa := some (spiC, conf.proposal),
              tsi := some [a.tsi], tsr := some [a.tsr],
              notifies := if conf.mode = 0 then [⟨.USE_TRANSPORT_MODE, []⟩] else [] }
          ({ s2 with state := .AUTH_REQ_SENT, requestInFlight := some req,
                     pendingAcquire := none,
                     retransmitAt := some RETRANSMIT_TIMEOUT, retransmissions := 0 },
           some req)
      | _, _ => (s, none)

/-- Modelled from the spec: install the child negotiated by a successful
response on the initiator: my SPI from the request in flight, the peer's
SPI and chosen proposal and the narrowed selectors from the response. -/
def installChildFromRes (s : IkeSa) (q m : Msg) : IkeSa × Option Msg :=
  match q.childSa, m.childSa, (m.tsi.getD []).head?, (m.tsr.getD []).head? with
  | some (mySpiC, _), some (peerSpiC, cp), some ntsi, some ntsr =>
    let mode : Nat := if hasNotify m .USE_TRANSPORT_MODE then 0 else 1
    let child : ChildSa := ⟨mySpiC, peerSpiC, cp, ntsi, ntsr, mode, 0⟩
    completeExchange { s with childSas := s.childSas ++ [child] }
  | _, _, _, _ => completeExchange s

/-- Modelled from the spec: initiator handling of the IKE_AUTH response
(section 4.1.5): an `AUTHENTICATION_FAILED` notify, or a responder AUTH
payload that does not verify, deletes the SA; a child-level error notify
leaves the SA `ESTABLISHED` with no child; otherwise the child is
installed. -/
def handleAuthRes (s : IkeSa) (q m : Msg) : IkeSa × Option Msg :=
  if hasNotify m .AUTHENTICATION_FAILED then (toDeleted s, none)
  else if m.authMethod = some AUTH_PSK ∧
          m.authData = some (authMac s.configuration.psk
            (signedOctetsResponder (m.idPayload.getD []))) then
    if hasNotify m .NO_PROPOSAL_CHOSEN ∨ hasNotify m .TS_UNACCEPTABLE then
      completeExchange s
    else installChildFromRes s q m
  else (toDeleted s, none)

/-- Modelled from the spec: initiator handling of a CREATE_CHILD_SA
response (sections 4.1.6 and 4.1.8): `TEMPORARY_FAILURE` or
`CHILD_SA_NOT_FOUND` abandons the exchange silently back to
`ESTABLISHED`; a child-level error notify completes with no child; a
successful rekey response installs the replacement and immediately sends
the INFORMATIONAL DELETE for the old child; a successful new-child
response installs the child. -/
def handleChildRes (s : IkeSa) (q m : Msg) : IkeSa × Option Msg :=
  if hasNotify m .TEMPORARY_FAILURE ∨ hasNotify m .CHILD_SA_NOT_FOUND then
    completeExchange s
  else if hasNotify m .NO_PROPOSAL_CHOSEN ∨ hasNotify m .TS_UNACCEPTABLE then
    completeExchange s
  else if s.state = .REK_CHILD_REQ_SENT then
    match s.rekeyingChildSpi, q.childSa, m.childSa,
          (m.tsi.getD []).head?, (m.tsr.getD []).head? with
    | some oldSpi, some (mySpiC, _), some (peerSpiC, cp), some ntsi, some ntsr =>
      let mode : Nat := if hasNotify m .USE_TRANSPORT_MODE then 0 else 1
      let child : ChildSa := ⟨mySpiC, peerSpiC, cp, ntsi, ntsr, mode, 0⟩
      let req : Msg :=
        { exchangeType := .INFORMATIONAL, isRequest := true,
          isInitiatorFlag := s.isInitiator, messageId := s.myMsgId + 1,
          delete := some (.childSa [oldSpi]) }
      ({ s with childSas := s.childSas ++ [child], myMsgId := s.myMsgId + 1,
                state := .DEL_CHILD_REQ_SENT, requestInFlight := some req,
                rekeyingChildSpi := none,
                retransmitAt := some RETRANSMIT_TIMEOUT, retransmissions := 0 },
       some req)
    | _, _, _, _, _ => completeExchange s
  else installChildFromRes s q m

/-- Modelled from the spec: initiator handling of the INFORMATIONAL
DELETE(child) response: remove the children whose deletion we requested
and complete the exchange. -/
def handleDelChildRes (s : IkeSa) (q _m : Msg) : IkeSa × Option Msg :=
  match q.delete with
  | some (.childSa spis) =>
    completeExchange
      { s with childSas := s.childSas.filter (fun c => !(spis.contains c.inboundSpi)) }
  | _ => completeExchange s

/-- Modelled from the spec: initiator handling of the rekey-IKE response
(section 4.1.6): `TEMPORARY_FAILURE` abandons the rekey; otherwise the
children are handed over to the (out-of-model) linked new SA and the old
SA sends INFORMATIONAL DELETE(IKE), moving to
`DEL_AFTER_REKEY_IKE_SA_REQ_SENT`. -/
def handleRekeyIkeRes (s : IkeSa) (_q m : Msg) : IkeSa × Option Msg :=
  if hasNotify m .TEMPORARY_FAILURE then completeExchange s
  else
    let req : Msg :=
      { exchangeType := .INFORMATIONAL, isRequest := true,
        isInitiatorFlag := s.isInitiator, messageId := s.myMsgId + 1,
        delete := some .ikeSa }
    ({ s with state := .DEL_AFTER_REKEY_IKE_SA_REQ_SENT, myMsgId := s.myMsgId + 1,
              requestInFlight := some req, childSas := [],
              retransmitAt := some RETRANSMIT_TIMEOUT, retransmissions := 0 },
     some req)

/-- Modelled from the spec: per-state response dispatch (section 4.1.3);
a response to DELETE(IKE) finishes the deletion, a DPD response at
`ESTABLISHED` merely completes the exchange. -/
def handleResponse (s : IkeSa) (q m : Msg) : IkeSa × Option Msg :=
  match s.state with
  | .INIT_REQ_SENT => handleInitRes s q m
  | .AUTH_REQ_SENT => handleAuthRes s q m
  | .NEW_CHILD_REQ_SENT => handleChildRes s q m
  | .REK_CHILD_REQ_SENT => handleChildRes s q m
  | .DEL_CHILD_REQ_SENT => handleDelChildRes s q m
  | .REK_IKE_SA_REQ_SENT => handleRekeyIkeRes s q m
  | .DEL_IKE_SA_REQ_SENT => (toDeleted s, none)
  | .DEL_AFTER_REKEY_IKE_SA_REQ_SENT => (toDeleted s, none)
  | .ESTABLISHED => completeExchange s
  | _ => (s, none)

/-! ## Public operations. -/

/-- Modelled from the spec: inbound response acceptance (section 4.1.3):
only when a request is in flight, the message id equals `my_msg_id` and
the exchange type answers the request in flight; otherwise dropped
silently. -/
def processResponse (s : IkeSa) (m : Msg) : IkeSa × Option Msg :=
  match s.requestInFlight with
  | none => (s, none)
  | some q =>
    if m.messageId = s.myMsgId ∧ m.exchangeType = q.exchangeType then
      handleResponse s q m
    else (s, none)

/-- Modelled from the spec: inbound request acceptance (section 4.1.2):
a request with `message_id = peer_msg_id - 1` is answered with the cached
`last_response_sent` verbatim, any other id mismatch is dropped, a wrong
initiator flag is dropped, the rest is dispatched per exchange. -/
def processRequest (s : IkeSa) (m : Msg) : IkeSa × Option Msg :=
  if m.messageId + 1 = s.peerMsgId then
    match s.lastResponseSent with
    | some r => (s, some r)
    | none => (s, none)
  else if m.messageId ≠ s.peerMsgId then (s, none)
  else if m.isInitiatorFlag = s.isInitiator then (s, none)
  else handleRequest s m

/-- Modelled from the spec: `process_message` (section 4.1.1), the unified
inbound handler; `DELETED` is terminal (section 3 invariant 5, section 8
invariant 3), so a deleted SA processes nothing and emits nothing. -/
def processMessage (s : IkeSa) (m : Msg) : IkeSa × Option Msg :=
  if s.state = .DELETED then (s, none)
  else if m.isRequest then processRequest s m
  else processResponse s m

/-- Modelled from the spec: `process_acquire` (section 4.1.1): no matching
policy means no action; at `INITIAL` it sends IKE_SA_INIT and keeps the
trigger for the IKE_AUTH that follows; at `ESTABLISHED` it starts a
CREATE_CHILD_SA; otherwise the trigger is queued (section 4.1.10). -/
def processAcquire (s : IkeSa) (a : Acquire) : IkeSa × Option Msg :=
  match s.configuration.protect.find? (fun conf => conf.index = a.index) with
  | none => (s, none)
  | some _ =>
    match s.state with
    | .INITIAL =>
      let req : Msg :=
        { exchangeType := .IKE_SA_INIT, isRequest := true,
          isInitiatorFlag := s.isInitiator, messageId := s.myMsgId,
          ikeProposal := some s.configuration.proposal,
          keDh := s.configuration.proposal.dh.head?,
          nonce := some s.myNonce }
      ({ s with state := .INIT_REQ_SENT, requestInFlight := some req,
                pendingAcquire := some a,
                retransmitAt := some RETRANSMIT_TIMEOUT, retransmissions := 0 },
       some req)
    | .ESTABLISHED => startAcquireEx s a
    | .DELETED => (s, none)
    | _ => ({ s with acquireQueue := s.acquireQueue ++ [a] }, none)

/-- Modelled from the spec: `process_expire` (section 4.1.1): an unknown
inbound SPI is ignored; at `ESTABLISHED` a hard expire starts the
delete exchange and a soft expire the rekey; other live states queue the
trigger (section 4.1.10). -/
def processExpire (s : IkeSa) (spi : Nat) (hard : Bool) : IkeSa × Option Msg :=
  if s.childSas.all (fun c => c.inboundSpi ≠ spi) then (s, none)
  else
    match s.state with
    | .ESTABLISHED => startExpireEx s spi hard
    | .DELETED => (s, none)
    | _ => ({ s with expireQueue := s.expireQueue ++ [(spi, hard)] }, none)

/-- Modelled from the spec: `check_retransmission_timer` (section 4.1.9):
armed whenever a request is in flight; each due fire resends the same
bytes while the retransmission count stays below `MAX_RETRANSMISSIONS`,
and on reaching it the SA transitions to `DELETED` with no datagram. -/
def checkRetransmissionTimer (s : IkeSa) (now : Nat) : IkeSa × Option Msg :=
  if s.state = .DELETED then (s, none)
  else
    match s.requestInFlight, s.retransmitAt with
    | some req, some t =>
      if t ≤ now then
        if s.retransmissions + 1 < MAX_RETRANSMISSIONS then
          ({ s with retransmissions := s.retransmissions + 1,
                    retransmitAt := some (now + RETRANSMIT_TIMEOUT) }, some req)
        else (toDeleted s, none)
      else (s, none)
    | _, _ => (s, none)

/-- Modelled from the spec: `check_dead_peer_detection_timer` (section
4.1.9): when the DPD instant is due at `ESTABLISHED` with nothing in
flight, an empty INFORMATIONAL request probes the peer. -/
def checkDeadPeerDetectionTimer (s : IkeSa) (now : Nat) : IkeSa × Option Msg :=
  if s.state = .DELETED then (s, none)
  else
    match s.startDpdAt with
    | some t =>
      if t ≤ now ∧ s.state = .ESTABLISHED ∧ s.requestInFlight = none then
        let req : Msg :=
          { exchangeType := .INFORMATIONAL, isRequest := true,
            isInitiatorFlag := s.isInitiator, messageId := s.myMsgId }
        ({ s with requestInFlight := some req, startDpdAt := none,
                  retransmitAt := some (now + RETRANSMIT_TIMEOUT),
                  retransmissions := 0 }, some req)
      else (s, none)
    | none => (s, none)

/-- Modelled from the spec: `check_rekey_ike_sa_timer` (sections 4.1.1 and
4.1.6): when the hard-lifetime instant is due the SA starts the
INFORMATIONAL DELETE(IKE) exchange; when the soft instant is due it
starts the rekey-IKE CREATE_CHILD_SA exchange. -/
def checkRekeyIkeSaTimer (s : IkeSa) (now : Nat) : IkeSa × Option Msg :=
  if s.state = .DELETED then (s, none)
  else if s.state = .ESTABLISHED ∧ s.requestInFlight = none then
    if (s.deleteIkeSaAt.getD (now + 1)) ≤ now then
      let req : Msg :=
        { exchangeType := .INFORMATIONAL, isRequest := true,
          isInitiatorFlag := s.isInitiator, messageId := s.myMsgId,
          delete := some .ikeSa }
      ({ s with state := .DEL_IKE_SA_REQ_SENT, requestInFlight := some req,
                retransmitAt := some (now + RETRANSMIT_TIMEOUT),
                retransmissions := 0 }, some req)
    else if (s.rekeyIkeSaAt.getD (now + 1)) ≤ now then
      let req : Msg :=
        { exchangeType := .CREATE_CHILD_SA, isRequest := true,
          isInitiatorFlag := s.isInitiator, messageId := s.myMsgId,
          ikeProposal := some s.configuration.proposal,
          nonce := some s.myNonce }
      ({ s with state := .REK_IKE_SA_REQ_SENT, requestInFlight := some req,
                retransmitAt := some (now + RETRANSMIT_TIMEOUT),
                retransmissions := 0 }, some req)
    else (s, none)
  else (s, none)

/-! ## Concrete scenario mirroring `test_protocol.py`'s `setUp`:
peers 192.168.0.1 (alice, modelled as address 1) and 192.168.0.2 (bob,
address 2), PSK "testing", DH group 14, SHA256 integrity and PRF,
AES-256/AES-128 child encryption, transport mode, TCP selectors
192.168.0.1/32:8765 and 192.168.0.2/32:23. -/

/-- Alice's side of the TCP policy selectors (her own address, any port). -/
def aliceSel : TrafficSel := ⟨1, 1, 0, 6⟩

/-- Bob's side of the TCP policy selectors (his own address, any port). -/
def bobSel : TrafficSel := ⟨2, 2, 0, 6⟩

/-- The ESP child proposal offering AES-256 and AES-128 with SHA256. -/
def espProposal : ChildProposal := ⟨3, [256, 128], [2]⟩

/-- Alice's configuration (policy index 1, transport mode). -/
def cfgAlice : IkeConfig :=
  { psk := [7], myId := [65], peerId := [66],
    proposal := ⟨[256], [2], [5], [14]⟩,
    protect := [⟨1, aliceSel, bobSel, 0, espProposal, 5⟩],
    lifetime := 900, dpd := 60 }

/-- Bob's configuration (policy index 2, transport mode). -/
def cfgBob : IkeConfig :=
  { psk := [7], myId := [66], peerId := [65],
    proposal := ⟨[256], [2], [5], [14]⟩,
    protect := [⟨2, bobSel, aliceSel, 0, espProposal, 5⟩],
    lifetime := 900, dpd := 60 }

/-- The acquire trigger of the tests: narrow TCP selectors, policy 1. -/
def acq1 : Acquire := ⟨⟨1, 1, 8765, 6⟩, ⟨2, 2, 23, 6⟩, 1⟩

/-- Fresh initiator SA (alice), peer SPI still zero. -/
def alice0 : IkeSa := mkIkeSa true 1 0 cfgAlice

/-- Fresh responder SA (bob), peer SPI learned from alice. -/
def bob0 : IkeSa := mkIkeSa false 2 1 cfgBob

/-- Fallback message used to destructure `Option Msg` in concrete runs;
never a valid message of any run (wrong message id). -/
def dummyMsg : Msg :=
  { exchangeType := .INFORMATIONAL, isRequest := false,
    isInitiatorFlag := false, messageId := 999 }

/-- Step 1 of the happy path: alice turns the acquire into IKE_SA_INIT. -/
def happy1 : IkeSa × Option Msg := processAcquire alice0 acq1

/-- Step 2: bob answers the IKE_SA_INIT request. -/
def happy2 : IkeSa × Option Msg := processMessage bob0 (happy1.2.getD dummyMsg)

/-- Step 3: alice processes the response and emits IKE_AUTH. -/
def happy3 : IkeSa × Option Msg := processMessage happy1.1 (happy2.2.getD dummyMsg)

/-- Step 4: bob answers the IKE_AUTH request. -/
def happy4 : IkeSa × Option Msg := processMessage happy2.1 (happy3.2.getD dummyMsg)

/-- Step 5: alice processes the final response. -/
def happy5 : IkeSa × Option Msg := processMessage happy3.1 (happy4.2.getD dummyMsg)

/-- Alice's SA after the initial exchanges. -/
def aliceE : IkeSa := happy5.1

/-- Bob's SA after the initial exchanges. -/
def bobE : IkeSa := happy4.1


/-! ## Further concrete scenarios used by the claims. -/

/-- Simultaneous child-rekey collision, step 1: alice's soft expire on her
inbound SPI 101 starts a rekey of the only child. -/
def rekeyStartA : IkeSa × Option Msg := processExpire aliceE 101 false

/-- Collision step 2: bob's soft expire on his inbound SPI 201 starts his
own rekey of the same child concurrently. -/
def rekeyStartB : IkeSa × Option Msg := processExpire bobE 201 false

/-- Collision step 3: bob, with his rekey in flight, answers alice's
rekey request. -/
def rekeyRespB : IkeSa × Option Msg :=
  processMessage rekeyStartB.1 (rekeyStartA.2.getD dummyMsg)

/-- Collision step 4: alice, with her rekey in flight, answers bob's
rekey request. -/
def rekeyRespA : IkeSa × Option Msg :=
  processMessage rekeyStartA.1 (rekeyStartB.2.getD dummyMsg)

/-- Collision step 5: alice processes bob's response to her own rekey. -/
def rekeyFinalA : IkeSa × Option Msg :=
  processMessage rekeyRespA.1 (rekeyRespB.2.getD dummyMsg)

/-- Collision step 6: bob processes alice's response to his own rekey. -/
def rekeyFinalB : IkeSa × Option Msg :=
  processMessage rekeyRespB.1 (rekeyRespA.2.getD dummyMsg)

/-- Queueing scenario, step 1: a first acquire at `ESTABLISHED` starts a
CREATE_CHILD_SA exchange. -/
def queued1 : IkeSa × Option Msg := processAcquire aliceE acq1

/-- Queueing step 2: the identical second acquire arrives while that
exchange is in flight. -/
def queued2 : IkeSa × Option Msg := processAcquire queued1.1 acq1

/-- Queueing step 3: bob answers the first CREATE_CHILD_SA request. -/
def queuedResp1 : IkeSa × Option Msg := processMessage bobE (queued1.2.getD dummyMsg)

/-- Queueing step 4: alice completes the first exchange; the queued
trigger synchronously produces the second request. -/
def queued3 : IkeSa × Option Msg := processMessage queued2.1 (queuedResp1.2.getD dummyMsg)

/-- Queueing step 5: bob answers the second CREATE_CHILD_SA request. -/
def queuedResp2 : IkeSa × Option Msg := processMessage queuedResp1.1 (queued3.2.getD dummyMsg)

/-- Queueing step 6: alice completes the second exchange. -/
def queued4 : IkeSa × Option Msg := processMessage queued3.1 (queuedResp2.2.getD dummyMsg)

/-- Delete-IKE scenario, step 1: alice's hard-lifetime instant is due and
she sends INFORMATIONAL DELETE(IKE). -/
def delIkeStart : IkeSa × Option Msg :=
  checkRekeyIkeSaTimer { aliceE with deleteIkeSaAt := some 0 } 0

/-- Delete-IKE step 2: bob answers the DELETE(IKE) request and transitions
to `DELETED`, with the response stored in his replay cache. -/
def delIkeBob : IkeSa × Option Msg :=
  processMessage bobE (delIkeStart.2.getD dummyMsg)

/-- Alice restarting IKE_SA_INIT with DH group 16 first, as in
`test_ike_sa_init_invalid_ke`: her configuration prefers group 16 while
bob only accepts 14. -/
def cfgAlice16 : IkeConfig :=
  { cfgAlice with proposal := ⟨[256], [2], [5], [16, 14]⟩ }

/-- The IKE_SA_INIT request whose KE payload uses DH group 16. -/
def initReq16 : Msg :=
  (processAcquire (mkIkeSa true 1 0 cfgAlice16) acq1).2.getD dummyMsg

/-- Bob's processing of the group-16 IKE_SA_INIT request: he selects
group 14 and must answer `INVALID_KE_PAYLOAD`. -/
def bobInvalidKe : IkeSa × Option Msg := processMessage bob0 initReq16

/-- The IKE_AUTH request of the happy path with its AUTH method flipped to
RSA (method id 1), as `test_ike_auth_invalid_auth_type` does. -/
def badAuthReq : Msg := { happy3.2.getD dummyMsg with authMethod := some 1 }

/-- Alice's configuration protecting with AH instead of ESP, as
`test_ike_auth_no_proposal_chosen` arranges: the child proposals of the
two peers no longer intersect. -/
def cfgAliceAH : IkeConfig :=
  { cfgAlice with protect := [⟨1, aliceSel, bobSel, 0, ⟨2, [256, 128], [2]⟩, 5⟩] }

/-- AH-mismatch scenario, step 1: alice sends IKE_SA_INIT. -/
def ahStep1 : IkeSa × Option Msg := processAcquire (mkIkeSa true 1 0 cfgAliceAH) acq1

/-- AH-mismatch step 2: bob answers IKE_SA_INIT (the IKE proposal still
intersects). -/
def ahStep2 : IkeSa × Option Msg := processMessage bob0 (ahStep1.2.getD dummyMsg)

/-- AH-mismatch step 3: alice emits the IKE_AUTH request offering AH. -/
def ahStep3 : IkeSa × Option Msg := processMessage ahStep1.1 (ahStep2.2.getD dummyMsg)

end Pyikev2

namespace Pyikev2

/-! ## Claim theorems. -/

/-- Claim C1: starting from fresh initiator and responder IkeSa objects
with matching configurations, the four-message happy path (initiator
`process_acquire` producing IKE_SA_INIT, responder `process_message`
producing its response, initiator `process_message` producing IKE_AUTH,
responder `process_message` producing its response) followed by the
initiator processing the final response returns None and leaves both SAs
in state `ESTABLISHED` with exactly one Child SA each. -/
theorem claim1_happy_path :
    happy1.2.isSome = true ∧ happy2.2.isSome = true ∧
    happy3.2.isSome = true ∧ happy4.2.isSome = true ∧
    happy5.2 = none ∧
    aliceE.state = .ESTABLISHED ∧ bobE.state = .ESTABLISHED ∧
    aliceE.childSas.length = 1 ∧ bobE.childSas.length = 1 := by decide

/-- Claim C2, counterexample: the claim as stated also covers an IkeSa in
state `DELETED`.  After the delete-IKE exchange, bob is `DELETED` with the
final response still stored in `last_response_sent`; replaying the
DELETE(IKE) request (whose message id is `peer_msg_id - 1`) yields no
datagram and in particular not the stored response, because `DELETED` is
terminal (section 8 invariant 3). -/
theorem claim2_counterexample :
    delIkeBob.1.state = .DELETED ∧
    delIkeBob.1.lastResponseSent.isSome = true ∧
    (delIkeStart.2.getD dummyMsg).isRequest = true ∧
    (delIkeStart.2.getD dummyMsg).messageId + 1 = delIkeBob.1.peerMsgId ∧
    processMessage delIkeBob.1 (delIkeStart.2.getD dummyMsg) = (delIkeBob.1, none) := by
  decide

/-- Claim C2 as amended: for every received request whose message id
equals `peer_msg_id - 1` while `last_response_sent` is set, provided the
SA is not in the terminal `DELETED` state, `process_message` returns
bytes identical to the previously stored `last_response_sent` and leaves
the IkeSa entirely unchanged. -/
theorem claim2_retransmission (s : IkeSa) (m r : Msg)
    (hs : s.state ≠ .DELETED) (hreq : m.isRequest = true)
    (hid : m.messageId + 1 = s.peerMsgId)
    (hlast : s.lastResponseSent = some r) :
    processMessage s m = (s, some r) := by
  simp [processMessage, processRequest, hs, hreq, hid, hlast]

/-- Claim C2 witness: a concrete retransmission to bob, still
`INIT_RES_SENT`, of the IKE_SA_INIT request he already answered. -/
theorem claim2_witness :
    processMessage happy2.1 (happy1.2.getD dummyMsg) =
      (happy2.1, some (happy2.2.getD dummyMsg)) :=
  claim2_retransmission happy2.1 (happy1.2.getD dummyMsg)
    (happy2.2.getD dummyMsg) (by decide) (by decide) (by decide) (by decide)

/-- Claim C8, counterexample: in the simultaneous rekey of the same child,
both sides answer `TEMPORARY_FAILURE` and abandon; contrary to the
claim's "the winner installs the new one", the higher-nonce peer (bob,
nonce `[102]` against alice's `[101]`) installs no new Child SA: both
child lists are exactly what they were before the collision. -/
theorem claim8_counterexample :
    rekeyStartA.1.state = .REK_CHILD_REQ_SENT ∧
    rekeyStartB.1.state = .REK_CHILD_REQ_SENT ∧
    aliceE.myNonce = [101] ∧ bobE.myNonce = [102] ∧
    rekeyFinalB.1.childSas = bobE.childSas ∧
    rekeyFinalA.1.childSas = aliceE.childSas := by decide

/-- Claim C8 as amended: when both peers simultaneously initiate a rekey
of the same child SA, each responds to the other's request with
`TEMPORARY_FAILURE`; on receiving its own response each side abandons its
rekey and keeps the old child SA (neither installs a new one), and
afterwards both sides hold the same number of child SAs (exactly one) in
state `ESTABLISHED`. -/
theorem claim8_amended :
    (rekeyRespB.2.map (fun x => hasNotify x .TEMPORARY_FAILURE)) = some true ∧
    (rekeyRespA.2.map (fun x => hasNotify x .TEMPORARY_FAILURE)) = some true ∧
    rekeyFinalA.2 = none ∧ rekeyFinalB.2 = none ∧
    rekeyFinalA.1.state = .ESTABLISHED ∧ rekeyFinalB.1.state = .ESTABLISHED ∧
    rekeyFinalA.1.childSas = aliceE.childSas ∧
    rekeyFinalB.1.childSas = bobE.childSas ∧
    rekeyFinalA.1.childSas.length = rekeyFinalB.1.childSas.length ∧
    rekeyFinalA.1.childSas.length = 1 := by decide

/-- Claim C9, counterexample: calling `process_acquire` twice with the
same selectors and policy index (the second while the first exchange is
in flight, so it is queued and returns None) yields, after both exchanges
complete, two additional child SAs on each side - not the single
additional child SA the claim states: each side goes from 1 to 3. -/
theorem claim9_counterexample :
    queued2.2 = none ∧
    queued4.1.state = .ESTABLISHED ∧ queuedResp2.1.state = .ESTABLISHED ∧
    aliceE.childSas.length = 1 ∧ bobE.childSas.length = 1 ∧
    queued4.1.childSas.length = 3 ∧ queuedResp2.1.childSas.length = 3 ∧
    queued4.1.childSas.length ≠ aliceE.childSas.length + 1 := by decide

/-- Claim C9 as amended: calling `process_acquire` twice with the same
traffic selectors and policy index while an exchange is in flight returns
None for the second call (the trigger is queued, not deduplicated), and
after both resulting exchanges complete each side holds exactly one
additional child SA per call - two in total. -/
theorem claim9_amended :
    queued2.2 = none ∧
    queued3.2.isSome = true ∧
    queued4.2 = none ∧
    queued4.1.state = .ESTABLISHED ∧ queuedResp2.1.state = .ESTABLISHED ∧
    queued4.1.childSas.length = aliceE.childSas.length + 2 ∧
    queuedResp2.1.childSas.length = bobE.childSas.length + 2 := by decide

end Pyikev2

namespace Pyikev2

/-- Claim C3: for every IkeSa whose state is `DELETED` and for every
subsequent input (`process_message` on any datagram, or any `check_*`
timer call), the operation emits no non-empty datagram and leaves the SA
unchanged: `DELETED` is terminal and no further sends are generated. -/
theorem claim3_deleted_terminal (s : IkeSa) (h : s.state = .DELETED) :
    (∀ m, processMessage s m = (s, none)) ∧
    (∀ now, checkRetransmissionTimer s now = (s, none)) ∧
    (∀ now, checkDeadPeerDetectionTimer s now = (s, none)) ∧
    (∀ now, checkRekeyIkeSaTimer s now = (s, none)) := by
  refine ⟨fun m => ?_, fun now => ?_, fun now => ?_, fun now => ?_⟩ <;>
    simp [processMessage, checkRetransmissionTimer,
          checkDeadPeerDetectionTimer, checkRekeyIkeSaTimer, h]

/-- Claim C3 witness: bob after the delete-IKE exchange is `DELETED` and
ignores a datagram and every timer. -/
theorem claim3_witness :
    processMessage delIkeBob.1 dummyMsg = (delIkeBob.1, none) ∧
    checkRetransmissionTimer delIkeBob.1 5 = (delIkeBob.1, none) ∧
    checkDeadPeerDetectionTimer delIkeBob.1 5 = (delIkeBob.1, none) ∧
    checkRekeyIkeSaTimer delIkeBob.1 5 = (delIkeBob.1, none) :=
  ⟨(claim3_deleted_terminal delIkeBob.1 (by decide)).1 dummyMsg,
   (claim3_deleted_terminal delIkeBob.1 (by decide)).2.1 5,
   (claim3_deleted_terminal delIkeBob.1 (by decide)).2.2.1 5,
   (claim3_deleted_terminal delIkeBob.1 (by decide)).2.2.2 5⟩

/-- Claim C4: whenever `request_in_flight` is set and the retransmission
timer fires on a live SA, `check_retransmission_timer` resends the very
same request bytes while the retransmission counter (counting this fire)
stays below `MAX_RETRANSMISSIONS`, and once `MAX_RETRANSMISSIONS` is
reached with no response the IkeSa transitions to `DELETED` and no
datagram is returned. -/
theorem claim4_retransmission_timer (s : IkeSa) (req : Msg) (t now : Nat)
    (hs : s.state ≠ .DELETED) (hin : s.requestInFlight = some req)
    (hat : s.retransmitAt = some t) (hdue : t ≤ now) :
    (s.retransmissions + 1 < MAX_RETRANSMISSIONS →
      checkRetransmissionTimer s now =
        ({ s with retransmissions := s.retransmissions + 1,
                  retransmitAt := some (now + RETRANSMIT_TIMEOUT) }, some req)) ∧
    (MAX_RETRANSMISSIONS ≤ s.retransmissions + 1 →
      (checkRetransmissionTimer s now).1.state = .DELETED ∧
      (checkRetransmissionTimer s now).2 = none) := by
  constructor
  · intro h
    simp [checkRetransmissionTimer, hs, hin, hat, hdue, h]
  · intro h
    simp [checkRetransmissionTimer, hs, hin, hat, hdue, Nat.not_lt.mpr h, toDeleted]

/-- Claim C4 witness: alice with the first CREATE_CHILD_SA request in
flight resends it on a due fire with counter 0, and is deleted without
output on a due fire with counter 3 (one below `MAX_RETRANSMISSIONS`). -/
theorem claim4_witness :
    checkRetransmissionTimer queued1.1 2 =
      ({ queued1.1 with retransmissions := queued1.1.retransmissions + 1,
                        retransmitAt := some (2 + RETRANSMIT_TIMEOUT) },
       some (queued1.2.getD dummyMsg)) ∧
    ((checkRetransmissionTimer { queued1.1 with retransmissions := 3 } 2).1.state
        = .DELETED ∧
     (checkRetransmissionTimer { queued1.1 with retransmissions := 3 } 2).2 = none) :=
  ⟨(claim4_retransmission_timer queued1.1 (queued1.2.getD dummyMsg) 2 2
      (by decide) (by decide) (by decide) (by decide)).1 (by decide),
   (claim4_retransmission_timer { queued1.1 with retransmissions := 3 }
      (queued1.2.getD dummyMsg) 2 2
      (by decide) (by decide) (by decide) (by decide)).2 (by decide)⟩

end Pyikev2

namespace Pyikev2

/-- Claim C5, counterexample: bob (DH list `[14]`) answers alice's
IKE_SA_INIT request carrying a group-16 KE payload with
`INVALID_KE_PAYLOAD` carrying the selected DH id 14, but his IkeSa does
not stay in `INITIAL`: it transitions to `DELETED` (spec section 8
scenario 2 and `test_ike_sa_init_invalid_ke`, where a fresh responder SA
serves the retried request). -/
theorem claim5_counterexample :
    (bobInvalidKe.2.map Msg.notifies) = some [⟨.INVALID_KE_PAYLOAD, [14]⟩] ∧
    bobInvalidKe.1.state = .DELETED ∧
    bobInvalidKe.1.state ≠ .INITIAL := by decide

/-- Claim C5 as amended: when the responder to an IKE_SA_INIT request
selects a DH group different from the group of the received KE payload,
it responds with an `INVALID_KE_PAYLOAD` notify carrying the selected DH
id and its IkeSa transitions to `DELETED` (the retried IKE_SA_INIT is
handled by a fresh responder SA). -/
theorem claim5_invalid_ke (s : IkeSa) (m : Msg) (p : IkeProposal)
    (c : ChosenIke) (g : Nat) (peerN : Bytes)
    (hrole : s.isInitiator = false) (hstate : s.state = .INITIAL)
    (hpeer : s.peerMsgId = 0)
    (hreq : m.isRequest = true) (hflag : m.isInitiatorFlag = true)
    (hid : m.messageId = 0) (hexch : m.exchangeType = .IKE_SA_INIT)
    (hprop : m.ikeProposal = some p) (hke : m.keDh = some g)
    (hnonce : m.nonce = some peerN)
    (hneg : negotiateIke s.configuration.proposal p = some c)
    (hne : g ≠ c.dh) :
    ((processMessage s m).2.map Msg.notifies) =
      some [⟨.INVALID_KE_PAYLOAD, [c.dh]⟩] ∧
    (processMessage s m).1.state = .DELETED := by
  simp [processMessage, processRequest, handleRequest, handleSaInitReq,
        respondWith, toDeleted, mkResponse, hstate, hpeer, hreq, hflag, hrole,
        hid, hexch, hprop, hke, hnonce, hneg, hne]

/-- Claim C5 witness: the amended statement at the concrete group-16
request against bob's group-14 configuration. -/
theorem claim5_witness :
    ((processMessage bob0 initReq16).2.map Msg.notifies) =
      some [⟨.INVALID_KE_PAYLOAD, [(⟨256, 2, 5, 14⟩ : ChosenIke).dh]⟩] ∧
    (processMessage bob0 initReq16).1.state = .DELETED :=
  claim5_invalid_ke bob0 initReq16 ⟨[256], [2], [5], [16, 14]⟩ ⟨256, 2, 5, 14⟩ 16 [101]
    (by decide) (by decide) (by decide) (by decide) (by decide) (by decide)
    (by decide) (by decide) (by decide) (by decide) (by decide) (by decide)

end Pyikev2

namespace Pyikev2

/-- Claim C6: if the AUTH payload of an IKE_AUTH request uses a method
other than PSK, or its AUTH data fails verification, the responder
answers with an `AUTHENTICATION_FAILED` notify and, after the initiator
processes that response, both sides are in state `DELETED` with zero
child SAs. -/
theorem claim6_authentication_failed (sR sI : IkeSa) (m q : Msg)
    (hRrole : sR.isInitiator = false) (hRstate : sR.state = .INIT_RES_SENT)
    (hreq : m.isRequest = true) (hflag : m.isInitiatorFlag = true)
    (hexch : m.exchangeType = .IKE_AUTH) (hid : m.messageId = sR.peerMsgId)
    (hbad : ¬ (m.authMethod = some AUTH_PSK ∧
      m.authData = some (authMac sR.configuration.psk
        (signedOctetsInitiator (m.idPayload.getD [])))))
    (hIstate : sI.state = .AUTH_REQ_SENT)
    (hIin : sI.requestInFlight = some q) (hq : q.exchangeType = .IKE_AUTH)
    (hild : sI.myMsgId = sR.peerMsgId) :
    (processMessage sR m).1.state = .DELETED ∧
    (processMessage sR m).1.childSas = [] ∧
    ((processMessage sR m).2.map Msg.notifies) =
      some [⟨.AUTHENTICATION_FAILED, []⟩] ∧
    processMessage sI ((processMessage sR m).2.getD dummyMsg) =
      (toDeleted sI, none) := by
  have hne : m.messageId + 1 ≠ sR.peerMsgId := by omega
  have h1 : processMessage sR m =
      respondWith (toDeleted sR)
        { mkResponse sR m with notifies := [⟨.AUTHENTICATION_FAILED, []⟩] } := by
    simp [processMessage, processRequest, handleRequest, handleAuthReq,
          hRstate, hreq, hexch, hid, hbad, hflag, hRrole, hne]
  rw [h1]
  refine ⟨by simp [respondWith, toDeleted], by simp [respondWith, toDeleted],
          by simp [respondWith], ?_⟩
  simp only [respondWith, Option.getD_some]
  simp [processMessage, processResponse, handleResponse, handleAuthRes,
        mkResponse, hasNotify, hIstate, hIin, hq, hexch, hid, hild]

/-- Claim C6 witness: the happy-path IKE_AUTH request with its AUTH method
flipped to RSA is rejected by bob, and alice processing the
`AUTHENTICATION_FAILED` response is deleted too. -/
theorem claim6_witness :
    (processMessage happy2.1 badAuthReq).1.state = .DELETED ∧
    (processMessage happy2.1 badAuthReq).1.childSas = [] ∧
    ((processMessage happy2.1 badAuthReq).2.map Msg.notifies) =
      some [⟨.AUTHENTICATION_FAILED, []⟩] ∧
    processMessage happy3.1 ((processMessage happy2.1 badAuthReq).2.getD dummyMsg) =
      (toDeleted happy3.1, none) :=
  claim6_authentication_failed happy2.1 happy3.1 badAuthReq
    (happy3.2.getD dummyMsg)
    (by decide) (by decide) (by decide) (by decide) (by decide) (by decide)
    (by decide) (by decide) (by decide) (by decide) (by decide)

end Pyikev2

namespace Pyikev2

/-- Claim C7: if the child-SA proposal in an IKE_AUTH request does not
intersect the responder's local proposals, the responder answers with a
`NO_PROPOSAL_CHOSEN` notify, no child SA is installed on either side, and
both IKE SAs nevertheless end in state `ESTABLISHED` (child negotiation
failure is non-fatal to the IKE SA). -/
theorem claim7_no_proposal_chosen (sR sI : IkeSa) (m q : Msg)
    (cspi : Nat) (offered : ChildProposal) (t0 t1 : TrafficSel)
    (hRrole : sR.isInitiator = false) (hRstate : sR.state = .INIT_RES_SENT)
    (hreq : m.isRequest = true) (hflag : m.isInitiatorFlag = true)
    (hexch : m.exchangeType = .IKE_AUTH) (hid : m.messageId = sR.peerMsgId)
    (hmeth : m.authMethod = some AUTH_PSK)
    (hdata : m.authData = some (authMac sR.configuration.psk
      (signedOctetsInitiator (m.idPayload.getD []))))
    (hchild : m.childSa = some (cspi, offered))
    (htsi : m.tsi = some [t0]) (htsr : m.tsr = some [t1])
    (hsel : selectChildConf sR.configuration.protect offered = none)
    (hIstate : sI.state = .AUTH_REQ_SENT)
    (hIin : sI.requestInFlight = some q) (hq : q.exchangeType = .IKE_AUTH)
    (hild : sI.myMsgId = sR.peerMsgId)
    (hpsk : sI.configuration.psk = sR.configuration.psk)
    (hqa : sI.acquireQueue = []) (hqe : sI.expireQueue = []) :
    ((processMessage sR m).2.map (fun x => hasNotify x .NO_PROPOSAL_CHOSEN)) =
      some true ∧
    (processMessage sR m).1.state = .ESTABLISHED ∧
    (processMessage sR m).1.childSas = sR.childSas ∧
    (processMessage sI ((processMessage sR m).2.getD dummyMsg)).1.state =
      .ESTABLISHED ∧
    (processMessage sI ((processMessage sR m).2.getD dummyMsg)).1.childSas =
      sI.childSas ∧
    (processMessage sI ((processMessage sR m).2.getD dummyMsg)).2 = none := by
  have hne : m.messageId + 1 ≠ sR.peerMsgId := by omega
  have h1 : processMessage sR m =
      respondWith { sR with state := .ESTABLISHED }
        { mkResponse sR m with
            idPayload := some sR.configuration.myId,
            authMethod := some AUTH_PSK,
            authData := some (authMac sR.configuration.psk
              (signedOctetsResponder sR.configuration.myId)),
            notifies := [⟨.NO_PROPOSAL_CHOSEN, []⟩] } := by
    simp [processMessage, processRequest, handleRequest, handleAuthReq,
          handleChildNegotiation, hRstate, hreq, hexch, hid, hflag, hRrole,
          hne, hmeth, hdata, hchild, htsi, htsr, hsel, mkResponse]
  rw [h1]
  refine ⟨by simp [respondWith, hasNotify], by simp [respondWith],
          by simp [respondWith], ?_, ?_, ?_⟩ <;>
  · simp only [respondWith, Option.getD_some]
    simp [processMessage, processResponse, handleResponse, handleAuthRes,
          mkResponse, hasNotify, hIstate, hIin, hq, hexch, hid, hild, hpsk,
          completeExchange, popQueue, hqa, hqe]

/-- Claim C7 witness: alice offering an AH child against bob's ESP-only
policy: bob replies `NO_PROPOSAL_CHOSEN`, neither side installs a child,
both SAs end `ESTABLISHED`. -/
theorem claim7_witness :
    ((processMessage ahStep2.1 (ahStep3.2.getD dummyMsg)).2.map
        (fun x => hasNotify x .NO_PROPOSAL_CHOSEN)) = some true ∧
    (processMessage ahStep2.1 (ahStep3.2.getD dummyMsg)).1.state = .ESTABLISHED ∧
    (processMessage ahStep2.1 (ahStep3.2.getD dummyMsg)).1.childSas =
      ahStep2.1.childSas ∧
    (processMessage ahStep3.1
        ((processMessage ahStep2.1 (ahStep3.2.getD dummyMsg)).2.getD dummyMsg)).1.state =
      .ESTABLISHED ∧
    (processMessage ahStep3.1
        ((processMessage ahStep2.1 (ahStep3.2.getD dummyMsg)).2.getD dummyMsg)).1.childSas =
      ahStep3.1.childSas ∧
    (processMessage ahStep3.1
        ((processMessage ahStep2.1 (ahStep3.2.getD dummyMsg)).2.getD dummyMsg)).2 =
      none :=
  claim7_no_proposal_chosen ahStep2.1 ahStep3.1 (ahStep3.2.getD dummyMsg)
    (ahStep3.2.getD dummyMsg) 101 ⟨2, [256, 128], [2]⟩ ⟨1, 1, 8765, 6⟩ ⟨2, 2, 23, 6⟩
    (by decide) (by decide) (by decide) (by decide) (by decide) (by decide)
    (by decide) (by decide) (by decide) (by decide) (by decide) (by decide)
    (by decide) (by decide) (by decide) (by decide) (by decide) (by decide)
    (by decide)

end Pyikev2

namespace Pyikev2

/-- Claim C10: for every address passed to
`Configuration.get_ike_configuration`, the method returns the
`IkeConfiguration` stored under exactly that peer address when one is
present (and conversely any returned configuration is the one stored
under that address - it never falls back to a different peer's entry),
and raises `ConfigurationNotFound` exactly when no entry for that
address exists.  The `Nodup` hypothesis is the key uniqueness of the
Python dict backing `_configuration`. -/
theorem claim10_get_ike_configuration {α : Type} (d : ConfDict α) (addr : Nat)
    (hnodup : (d.map Prod.fst).Nodup) :
    (∀ cfg : α, get_ike_configuration d addr = .ok cfg ↔ (addr, cfg) ∈ d) ∧
    (get_ike_configuration d addr = .error .ConfigurationNotFound ↔
      ∀ cfg : α, (addr, cfg) ∉ d) := by
  induction d with
  | nil => simp [get_ike_configuration]
  | cons hd tl ih =>
    rw [List.map_cons, List.nodup_cons] at hnodup
    obtain ⟨hhd, htl⟩ := hnodup
    obtain ⟨ih1, ih2⟩ := ih htl
    by_cases h : addr = hd.1
    · have hfind : (hd :: tl).find? (fun kv => decide (addr = kv.1)) = some hd :=
        List.find?_cons_of_pos _ (by simp [h])
      constructor
      · intro cfg
        rw [get_ike_configuration]
        rw [hfind]
        constructor
        · intro hok
          have : hd.2 = cfg := by
            simpa using hok
          subst this
          have : (addr, hd.2) = hd := by
            rw [h]
          rw [this]
          exact List.mem_cons_self hd tl
        · intro hmem
          rcases List.mem_cons.mp hmem with heq | hmemtl
          · simp [← heq]
          · exfalso
            apply hhd
            rw [← h]
            exact List.mem_map.mpr ⟨(addr, cfg), hmemtl, rfl⟩
      · rw [get_ike_configuration]
        rw [hfind]
        constructor
        · intro hok
          exact absurd hok (by simp)
        · intro hall
          exfalso
          apply hall hd.2
          have : (addr, hd.2) = hd := by
            rw [h]
          rw [this]
          exact List.mem_cons_self hd tl
    · have hfind : (hd :: tl).find? (fun kv => decide (addr = kv.1)) =
          tl.find? (fun kv => decide (addr = kv.1)) :=
        List.find?_cons_of_neg _ (by simp [h])
      have hsame : get_ike_configuration (hd :: tl) addr =
          get_ike_configuration tl addr := by
        rw [get_ike_configuration, get_ike_configuration, hfind]
      rw [hsame]
      constructor
      · intro cfg
        rw [ih1 cfg]
        constructor
        · intro hmem
          exact List.mem_cons_of_mem hd hmem
        · intro hmem
          rcases List.mem_cons.mp hmem with heq | hmemtl
          · exfalso
            apply h
            have := congrArg Prod.fst heq
            simpa using this
          · exact hmemtl
      · rw [ih2]
        constructor
        · intro hall cfg hmem
          rcases List.mem_cons.mp hmem with heq | hmemtl
          · apply h
            have := congrArg Prod.fst heq
            simpa using this
          · exact hall cfg hmemtl
        · intro hall cfg hmem
          exact hall cfg (List.mem_cons_of_mem hd hmem)


/-- Claim C10 witness: on the two-peer dictionary, address 2 yields its
own entry and address 3 raises `ConfigurationNotFound`. -/
theorem claim10_witness :
    get_ike_configuration [(1, 10), (2, 20)] 2 = .ok 20 ∧
    get_ike_configuration ([(1, 10), (2, 20)] : ConfDict Nat) 3 =
      .error .ConfigurationNotFound :=
  ⟨((claim10_get_ike_configuration [(1, 10), (2, 20)] 2 (by decide)).1 20).mpr
      (by decide),
   ((claim10_get_ike_configuration [(1, 10), (2, 20)] 3 (by decide)).2).mpr
      (by simp)⟩

end Pyikev2
